import Mathlib

/-!
Shallow embedding of the verdict-scoring and comparison logic of
`src/app.py` (functions `get_verdict` and `handle_comparison`).

Python strings are modelled as Lean `String`; Python `s.lower()` is
`pyLower` (character-wise lowering of the underlying character list) and
the Python substring test `a in b` is `pyIn a b` (contiguous-infix test on
the character lists).  The arbitrary-precision Python integer `score` is
an `Int`.  The Streamlit rendering calls are modelled by their visible
content: the banner chosen by the final `if/elif/else` of `get_verdict`
becomes a `Classification`, and the markdown bullet list becomes the
`reasons : List String` field of `VerdictResult`.  The exception
handling of `handle_comparison` is modelled with `Except PyExn`, where
`PyExn` keeps the dynamic exception type name (the code branches on
whether `type(e).__name__` equals "NotFoundError") and the display
message.
-/

/-- The remote Play-Store listing record consumed by `get_verdict`
(`play_details` in `src/app.py`): fields `title`, `version`, `developer`
and `url` are the dictionary keys the code reads. -/
structure PlayDetails where
  title : String
  version : String
  developer : String
  url : String
deriving DecidableEq

/-- A search result returned by the fallback `search` call in
`handle_comparison`: the code reads keys `title`, `developer`, `appId`. -/
structure SearchCandidate where
  title : String
  developer : String
  appId : String
deriving DecidableEq

/-- The three banners rendered by the final `if/elif/else` of
`get_verdict`: `st.success` (likely genuine), `st.warning` (potentially
outdated or modified), `st.error` (potentially fake or unofficial). -/
inductive Classification where
  | GENUINE
  | SUSPICIOUS
  | LIKELY_FAKE
deriving DecidableEq

/-- The observable output of one `get_verdict` call: the integer score,
the banner it selects, and the markdown reason list in emission order. -/
structure VerdictResult where
  score : Int
  classification : Classification
  reasons : List String
deriving DecidableEq

/-- A Python exception as `handle_comparison` observes it: its dynamic
type name (`type(e).__name__`) and its display text (`str(e)`). -/
structure PyExn where
  name : String
  msg : String
deriving DecidableEq

/-- Python `s.lower()` restricted to the ASCII range handled by
`Char.toLower`, applied character-wise as in CPython for ASCII data. -/
def pyLower (s : String) : String :=
  ⟨s.data.map Char.toLower⟩

/-- The Python substring operator: `pyIn a b` is `a in b`, a contiguous
containment test on the character sequences. -/
def pyIn (a b : String) : Bool :=
  decide (a.data <:+: b.data)

/-- The final `if score >= 90 / elif 50 <= score < 90 / else` banner
selection at the end of `get_verdict` in `src/app.py`. -/
def classify (score : Int) : Classification :=
  if score ≥ 90 then .GENUINE
  else if 50 ≤ score ∧ score < 90 then .SUSPICIOUS
  else .LIKELY_FAKE

/-- Reason appended by `get_verdict` when `play_details is None`. -/
def notFoundReason : String :=
  "❌ **App Not Found on Play Store:** The package name does not exist on the official Google Play Store. This is a major red flag."

/-- Reason appended on a case-insensitive exact name match. -/
def nameMatchReason : String :=
  "✅ **App Name Match:** The app name is consistent with the Play Store listing."

/-- Reason appended on a substring (minor) name mismatch; interpolates
both literal names. -/
def minorNameReason (app_name title : String) : String :=
  "⚠️ **Minor Name Mismatch:** APK name is \x27" ++ app_name ++ "\x27, Play Store name is \x27" ++ title ++ "\x27."

/-- Reason appended on a major name mismatch; interpolates both literal
names. -/
def majorNameReason (app_name title : String) : String :=
  "❌ **Major Name Mismatch:** APK name (\x27" ++ app_name ++ "\x27) is very different from the Play Store name (\x27" ++ title ++ "\x27)."

/-- Reason appended on an exact version-string match. -/
def versionMatchReason (version_name : String) : String :=
  "✅ **Version Match:** The APK version (`" ++ version_name ++ "`) is the latest available on the Play Store."

/-- Reason appended on a version-string mismatch; interpolates both
literal version strings. -/
def versionMismatchReason (version_name store_version : String) : String :=
  "⚠️ **Version Mismatch:** APK version is `" ++ version_name ++ "`, but the latest on the Play Store is `" ++ store_version ++ "`. This could be an old or modified version."

/-- The unconditional informational reason naming the listing developer. -/
def developerReason (developer : String) : String :=
  "✅ **Official Developer:** The developer on the Play Store is **" ++ developer ++ "**."

/-- `get_verdict(app_name, version_name, play_details)` from
`src/app.py` lines 49-78: start at `score = 100`; if the listing is
absent subtract 50 and record the not-found reason; otherwise compare
lowered names (exact / substring either way / otherwise, deducting
0 / 15 / 40), compare version strings exactly (deducting 0 / 20), and
always append the developer reason; finally select the banner from the
score. -/
def get_verdict (app_name version_name : String) (play_details : Option PlayDetails) :
    VerdictResult :=
  let score : Int := 100
  let reasons : List String := []
  match play_details with
  | none =>
      let score := score - 50
      let reasons := reasons ++ [notFoundReason]
      ⟨score, classify score, reasons⟩
  | some pd =>
      let apk_name_lower := pyLower app_name
      let store_name_lower := pyLower pd.title
      let sr1 : Int × List String :=
        if apk_name_lower = store_name_lower then
          (score, reasons ++ [nameMatchReason])
        else if pyIn apk_name_lower store_name_lower || pyIn store_name_lower apk_name_lower then
          (score - 15, reasons ++ [minorNameReason app_name pd.title])
        else
          (score - 40, reasons ++ [majorNameReason app_name pd.title])
      let sr2 : Int × List String :=
        if version_name = pd.version then
          (sr1.1, sr1.2 ++ [versionMatchReason version_name])
        else
          (sr1.1 - 20, sr1.2 ++ [versionMismatchReason version_name pd.version])
      let reasons := sr2.2 ++ [developerReason pd.developer]
      ⟨sr2.1, classify sr2.1, reasons⟩

/-- The outcome of the fallback-search section of `handle_comparison`:
the `No similar apps found` warning, the rendered candidate list, or the
`An error occurred during the search` error message. -/
inductive SearchOutcome where
  | noResults
  | results : List SearchCandidate → SearchOutcome
  | errored : String → SearchOutcome
deriving DecidableEq

/-- The observable outcome of `handle_comparison`: a side-by-side direct
comparison, the fallback search with the absent-listing verdict, or the
unexpected-error message. -/
inductive ComparisonOutcome where
  | direct : VerdictResult → PlayDetails → ComparisonOutcome
  | fallback : VerdictResult → SearchOutcome → ComparisonOutcome
  | error : String → ComparisonOutcome
deriving DecidableEq

/-- `handle_comparison(app_name, package_name, version_name)` from
`src/app.py` lines 80-114, with the two network collaborators passed in:
`lookupFn` models `app(package_name, ...)` and `searchFn` models
`search(app_name, n_hits=3, ...)`, each either returning a value or
raising an exception.  On lookup success the verdict over the listing is
rendered with the side-by-side comparison; on an exception named
`NotFoundError` the absent-listing verdict is rendered and the fallback
search runs (its own failure is caught and rendered as a search-error
message); on any other exception only the unexpected-error message is
rendered. -/
def handle_comparison (app_name package_name version_name : String)
    (lookupFn : String → Except PyExn PlayDetails)
    (searchFn : String → Nat → Except PyExn (List SearchCandidate)) :
    ComparisonOutcome :=
  match lookupFn package_name with
  | .ok play_details =>
      .direct (get_verdict app_name version_name (some play_details)) play_details
  | .error e =>
      if e.name = "NotFoundError" then
        let verdict := get_verdict app_name version_name none
        match searchFn app_name 3 with
        | .ok search_results =>
            if search_results.isEmpty then .fallback verdict .noResults
            else .fallback verdict (.results search_results)
        | .error search_e =>
            .fallback verdict (.errored search_e.msg)
      else
        .error e.msg

/-- `handle_comparison` instrumented with the list of `(query, n_hits)`
argument pairs passed to the search collaborator, in call order, so that
claims about whether and how the fallback search is invoked can be
stated.  Its first component is exactly `handle_comparison`. -/
def handle_comparisonCalls (app_name package_name version_name : String)
    (lookupFn : String → Except PyExn PlayDetails)
    (searchFn : String → Nat → Except PyExn (List SearchCandidate)) :
    ComparisonOutcome × List (String × Nat) :=
  match lookupFn package_name with
  | .ok play_details =>
      (.direct (get_verdict app_name version_name (some play_details)) play_details, [])
  | .error e =>
      if e.name = "NotFoundError" then
        let verdict := get_verdict app_name version_name none
        match searchFn app_name 3 with
        | .ok search_results =>
            if search_results.isEmpty then (.fallback verdict .noResults, [(app_name, 3)])
            else (.fallback verdict (.results search_results), [(app_name, 3)])
        | .error search_e =>
            (.fallback verdict (.errored search_e.msg), [(app_name, 3)])
      else
        (.error e.msg, [])

/-! ## Theorems about the verdict engine and orchestrator -/

/-- Helper: in every branch of `get_verdict` the recorded classification
is the banner selection applied to the recorded score. -/
theorem get_verdict_classification_eq (n v : String) (pd : Option PlayDetails) :
    (get_verdict n v pd).classification = classify (get_verdict n v pd).score := by
  cases pd <;> rfl

/-- Helper: the deductions of `get_verdict` never push the score below
40: the absent branch yields 50 and the present branch yields at worst
100 - 40 - 20 = 40. -/
theorem get_verdict_score_ge_forty (n v : String) (pd : Option PlayDetails) :
    40 ≤ (get_verdict n v pd).score := by
  cases pd with
  | none => simp [get_verdict]
  | some pd => simp only [get_verdict]; split_ifs <;> norm_num

/-- C1: for every app name and version name, the verdict computed with
an absent remote listing has score exactly 50, classification
SUSPICIOUS, and a reasons list that is exactly the single app-not-found
reason: no name, version, or developer reasons arise in this branch. -/
theorem verdict_absent_listing (n v : String) :
    get_verdict n v none = ⟨50, .SUSPICIOUS, [notFoundReason]⟩ := rfl

/-- C2: whenever the listing is present, the local name equals the
listing title case-insensitively, and the local version string equals
the listing version exactly, the verdict is score 100, classification
GENUINE, and the reasons are exactly the name-match reason, the
version-match reason, and the unconditional developer reason, in that
order. -/
theorem verdict_full_match (n v : String) (pd : PlayDetails)
    (hn : pyLower n = pyLower pd.title) (hv : v = pd.version) :
    get_verdict n v (some pd) =
      ⟨100, .GENUINE, [nameMatchReason, versionMatchReason v, developerReason pd.developer]⟩ := by
  subst hv
  simp [get_verdict, hn, classify]

/-- Witness for C2 at the concrete input of the spec example. -/
theorem verdict_full_match_witness :
    get_verdict "Foo" "1.0" (some ⟨"Foo", "1.0", "D", "u"⟩) =
      ⟨100, .GENUINE, [nameMatchReason, versionMatchReason "1.0", developerReason "D"]⟩ :=
  verdict_full_match "Foo" "1.0" ⟨"Foo", "1.0", "D", "u"⟩ rfl rfl

/-- C3: classification is a total non-overlapping partition of the
integer score axis determined only by the final score: GENUINE exactly
when the score is at least 90, SUSPICIOUS exactly when it is at least 50
and below 90, LIKELY_FAKE exactly when it is below 50; the boundary
scores 90, 50 and 49 classify GENUINE, SUSPICIOUS and LIKELY_FAKE
respectively; and the classification recorded by `get_verdict` is that
pure function of its score, hence deterministic in the pair of local
info and optional listing. -/
theorem classification_partition :
    (∀ s : Int,
      (classify s = .GENUINE ↔ 90 ≤ s) ∧
      (classify s = .SUSPICIOUS ↔ 50 ≤ s ∧ s < 90) ∧
      (classify s = .LIKELY_FAKE ↔ s < 50)) ∧
    classify 90 = .GENUINE ∧ classify 50 = .SUSPICIOUS ∧ classify 49 = .LIKELY_FAKE ∧
    (∀ (n v : String) (pd : Option PlayDetails),
      (get_verdict n v pd).classification = classify (get_verdict n v pd).score) := by
  refine ⟨fun s => ?_, by decide, by decide, by decide,
    fun n v pd => get_verdict_classification_eq n v pd⟩
  unfold classify
  split_ifs with h1 h2 <;> refine ⟨?_, ?_, ?_⟩ <;> simp <;> omega

/-- C4: name comparison is case-insensitive and three-tiered: with a
present listing and matching versions, names equal up to case give an
exact match with no deduction (score 100), while unequal names where one
lowered name is a substring of the other deduct exactly 15, giving score
85 and classification SUSPICIOUS. -/
theorem name_comparison_tiers (n v : String) (pd : PlayDetails) (hv : v = pd.version) :
    (pyLower n = pyLower pd.title →
      get_verdict n v (some pd) =
        ⟨100, .GENUINE, [nameMatchReason, versionMatchReason v, developerReason pd.developer]⟩) ∧
    (¬ pyLower n = pyLower pd.title →
      (pyIn (pyLower n) (pyLower pd.title) || pyIn (pyLower pd.title) (pyLower n)) = true →
      get_verdict n v (some pd) =
        ⟨85, .SUSPICIOUS, [minorNameReason n pd.title, versionMatchReason v, developerReason pd.developer]⟩) := by
  subst hv
  constructor
  · intro hn; simp [get_verdict, hn, classify]
  · intro hn hs; simp [get_verdict, hn, hs, classify]

/-- Witness for C4 at the concrete inputs of the spec examples: MyApp
versus myapp is an exact match, and Foo versus Foobar scores 85
SUSPICIOUS. -/
theorem name_comparison_tiers_witness :
    get_verdict "MyApp" "1.0" (some ⟨"myapp", "1.0", "D", "u"⟩) =
      ⟨100, .GENUINE, [nameMatchReason, versionMatchReason "1.0", developerReason "D"]⟩ ∧
    get_verdict "Foo" "1.0" (some ⟨"Foobar", "1.0", "D", "u"⟩) =
      ⟨85, .SUSPICIOUS, [minorNameReason "Foo" "Foobar", versionMatchReason "1.0", developerReason "D"]⟩ :=
  ⟨(name_comparison_tiers "MyApp" "1.0" ⟨"myapp", "1.0", "D", "u"⟩ rfl).1 (by decide),
   (name_comparison_tiers "Foo" "1.0" ⟨"Foobar", "1.0", "D", "u"⟩ rfl).2 (by decide) (by decide)⟩

/-- C5: with a present listing whose title is neither case-insensitively
equal to the local name nor in a case-insensitive substring relation
with it (deduct 40), and whose version string differs from the local one
under exact string equality (deduct 20), the verdict is score 40 and
classification LIKELY_FAKE, with the major-mismatch, version-mismatch
and developer reasons in order. -/
theorem verdict_major_mismatch (n v : String) (pd : PlayDetails)
    (hn : ¬ pyLower n = pyLower pd.title)
    (hs : (pyIn (pyLower n) (pyLower pd.title) || pyIn (pyLower pd.title) (pyLower n)) = false)
    (hv : ¬ v = pd.version) :
    get_verdict n v (some pd) =
      ⟨40, .LIKELY_FAKE,
        [majorNameReason n pd.title, versionMismatchReason v pd.version,
          developerReason pd.developer]⟩ := by
  simp [get_verdict, hn, hs, hv, classify]

/-- Witness for C5 at the concrete input of the spec example. -/
theorem verdict_major_mismatch_witness :
    get_verdict "Foo" "1.0" (some ⟨"Zed", "2.0", "D", "u"⟩) =
      ⟨40, .LIKELY_FAKE,
        [majorNameReason "Foo" "Zed", versionMismatchReason "1.0" "2.0", developerReason "D"]⟩ :=
  verdict_major_mismatch "Foo" "1.0" ⟨"Zed", "2.0", "D", "u"⟩ (by decide) (by decide) (by decide)

/-- C6: when the lookup fails with an exception named NotFoundError and
the search returns zero candidates, the orchestrator computes the
absent-listing verdict (score 50), invokes the search collaborator
exactly once with the local app name and a limit of 3, and returns a
fallback-search outcome in the distinct no-similar-apps state rather
than an error. -/
theorem orchestrator_not_found_fallback (an pn vn : String)
    (lookupFn : String → Except PyExn PlayDetails)
    (searchFn : String → Nat → Except PyExn (List SearchCandidate)) (e : PyExn)
    (hl : lookupFn pn = .error e) (hn : e.name = "NotFoundError")
    (hs : searchFn an 3 = .ok []) :
    handle_comparisonCalls an pn vn lookupFn searchFn =
      (.fallback (get_verdict an vn none) .noResults, [(an, 3)]) ∧
    handle_comparison an pn vn lookupFn searchFn =
      .fallback (get_verdict an vn none) .noResults ∧
    (get_verdict an vn none).score = 50 := by
  refine ⟨?_, ?_, rfl⟩ <;> simp [handle_comparisonCalls, handle_comparison, hl, hn, hs]

/-- Witness for C6 with a concrete not-found lookup and an
empty-returning search. -/
theorem orchestrator_not_found_fallback_witness :
    handle_comparisonCalls "Foo" "com.foo" "1.0"
        (fun _ => .error ⟨"NotFoundError", "nf"⟩) (fun _ _ => .ok []) =
      (.fallback (get_verdict "Foo" "1.0" none) .noResults, [("Foo", 3)]) ∧
    handle_comparison "Foo" "com.foo" "1.0"
        (fun _ => .error ⟨"NotFoundError", "nf"⟩) (fun _ _ => .ok []) =
      .fallback (get_verdict "Foo" "1.0" none) .noResults ∧
    (get_verdict "Foo" "1.0" none).score = 50 :=
  orchestrator_not_found_fallback "Foo" "com.foo" "1.0"
    (fun _ => .error ⟨"NotFoundError", "nf"⟩) (fun _ _ => .ok [])
    ⟨"NotFoundError", "nf"⟩ rfl rfl rfl

/-- C7: when the lookup fails with any exception whose type name is not
NotFoundError, the orchestrator returns an error outcome carrying the
failure description, makes no call to the search collaborator (the
recorded call list is empty in every such run), and the outcome carries
no verdict. -/
theorem orchestrator_error_no_search (an pn vn : String)
    (lookupFn : String → Except PyExn PlayDetails)
    (searchFn : String → Nat → Except PyExn (List SearchCandidate)) (e : PyExn)
    (hl : lookupFn pn = .error e) (hn : ¬ e.name = "NotFoundError") :
    handle_comparisonCalls an pn vn lookupFn searchFn = (.error e.msg, []) ∧
    handle_comparison an pn vn lookupFn searchFn = .error e.msg := by
  constructor <;> simp [handle_comparisonCalls, handle_comparison, hl, hn]

/-- Witness for C7 with a concrete generic lookup failure. -/
theorem orchestrator_error_no_search_witness :
    handle_comparisonCalls "Foo" "com.foo" "1.0"
        (fun _ => .error ⟨"HTTPError", "boom"⟩) (fun _ _ => .ok []) =
      (.error "boom", []) ∧
    handle_comparison "Foo" "com.foo" "1.0"
        (fun _ => .error ⟨"HTTPError", "boom"⟩) (fun _ _ => .ok []) =
      .error "boom" :=
  orchestrator_error_no_search "Foo" "com.foo" "1.0"
    (fun _ => .error ⟨"HTTPError", "boom"⟩) (fun _ _ => .ok [])
    ⟨"HTTPError", "boom"⟩ rfl (by decide)

/-- C8: if the fallback search itself fails after a NotFoundError
lookup, the orchestrator still returns a fallback outcome whose
candidate part is the errored state carrying the search failure
description, and the absent-listing verdict computed before the search
(score 50, SUSPICIOUS, single not-found reason) is surfaced unchanged
rather than the exception propagating. -/
theorem orchestrator_search_failure_surfaced (an pn vn : String)
    (lookupFn : String → Except PyExn PlayDetails)
    (searchFn : String → Nat → Except PyExn (List SearchCandidate)) (e se : PyExn)
    (hl : lookupFn pn = .error e) (hn : e.name = "NotFoundError")
    (hs : searchFn an 3 = .error se) :
    handle_comparison an pn vn lookupFn searchFn =
      .fallback (get_verdict an vn none) (.errored se.msg) ∧
    get_verdict an vn none = ⟨50, .SUSPICIOUS, [notFoundReason]⟩ := by
  refine ⟨?_, rfl⟩
  simp [handle_comparison, hl, hn, hs]

/-- Witness for C8 with a concrete not-found lookup and a failing
search. -/
theorem orchestrator_search_failure_surfaced_witness :
    handle_comparison "Foo" "com.foo" "1.0"
        (fun _ => .error ⟨"NotFoundError", "nf"⟩)
        (fun _ _ => .error ⟨"SearchError", "sboom"⟩) =
      .fallback (get_verdict "Foo" "1.0" none) (.errored "sboom") ∧
    get_verdict "Foo" "1.0" none = ⟨50, .SUSPICIOUS, [notFoundReason]⟩ :=
  orchestrator_search_failure_surfaced "Foo" "com.foo" "1.0"
    (fun _ => .error ⟨"NotFoundError", "nf"⟩)
    (fun _ _ => .error ⟨"SearchError", "sboom"⟩)
    ⟨"NotFoundError", "nf"⟩ ⟨"SearchError", "sboom"⟩ rfl rfl rfl

/-- C9 counterexample: the claim that some input drives the verdict
score below 0 is false: no combination of local fields and optional
listing yields a negative score, since the branches deduct at most 50
(absent) or 40 + 20 (present). -/
theorem score_never_below_zero :
    ¬ ∃ (n v : String) (pd : Option PlayDetails), (get_verdict n v pd).score < 0 :=
  fun ⟨n, v, pd, h⟩ => absurd (get_verdict_score_ge_forty n v pd) (by omega)

/-- C9 amended: the deductions can combine to reach 40, strictly below
the absent-listing score of 50 and below the LIKELY_FAKE threshold, and
40 is the minimum achievable score: no input yields a score below 40,
in particular never below 0. -/
theorem score_minimum_forty :
    (∀ (n v : String) (pd : Option PlayDetails), 40 ≤ (get_verdict n v pd).score) ∧
    (∃ (n v : String) (pd : Option PlayDetails), (get_verdict n v pd).score = 40) :=
  ⟨get_verdict_score_ge_forty, ⟨"Foo", "1.0", some ⟨"Zed", "2.0", "D", "u"⟩, rfl⟩⟩

/-- C10: with a present listing the verdict score is always one of 100,
85, 80, 65, 60, 40 — never below 40 — and the classification is GENUINE
exactly when the lowered names are equal and the version strings are
exactly equal: any single deduction already drops the score below the
90 threshold. -/
theorem present_listing_score_range (n v : String) (pd : PlayDetails) :
    (get_verdict n v (some pd)).score ∈ ([100, 85, 80, 65, 60, 40] : List Int) ∧
    ((get_verdict n v (some pd)).classification = .GENUINE ↔
      (pyLower n = pyLower pd.title ∧ v = pd.version)) := by
  simp only [get_verdict]
  split_ifs with h1 h2 h3 h4 h5 <;> simp_all [classify]
